import Mathlib

/- Shallow embedding of src/app.py: a Flask translation gateway with two
   views, translate_text (POST /translate) and ping (GET /ping).  JSON
   values are modelled by an inductive type, the outbound HTTP call by an
   oracle function passed to the handler, and Python exceptions by an
   explicit error type so that the narrow
   `except requests.exceptions.RequestException` clause is modelled exactly
   as written. -/

/-- JSON values as produced by Flask's request.get_json and consumed by
    jsonify. -/
inductive Json where
  | null
  | bool (b : Bool)
  | num (n : Int)
  | str (s : String)
  | arr (elems : List Json)
  | obj (fields : List (String × Json))

/-- Python truthiness of a JSON value, as tested by `all([...])`:
    None, False, 0, the empty string, the empty list and the empty dict are
    falsy; everything else is truthy. -/
def truthy : Json → Bool
  | .null => false
  | .bool b => b
  | .num n => n != 0
  | .str s => s != ""
  | .arr elems => !elems.isEmpty
  | .obj fields => !fields.isEmpty

/-- `data.get(k)` on the parsed request dict: the stored value when the key
    is present, Python None (here Json.null) otherwise. -/
def dictGet (data : List (String × Json)) (k : String) : Json :=
  match data.find? (fun p => p.1 == k) with
  | some p => p.2
  | none => .null

/-- The Python exceptions that can arise inside the try block of
    translate_text. -/
inductive PyExc where
  | requestException (msg : String)
  | httpError (status : Nat)
  | jsonDecodeError
  | indexError
  | keyError (k : String)
  | typeError (msg : String)

/-- Whether the exception is caught by
    `except requests.exceptions.RequestException`.  HTTPError (from
    raise_for_status) is a RequestException, and response.json() on an
    undecodable body raises requests.exceptions.JSONDecodeError, a
    RequestException subclass since requests 2.27.  IndexError, KeyError and
    TypeError from the subscript chain on line 80 are not RequestExceptions
    and are not caught. -/
def PyExc.isRequestException : PyExc → Bool
  | .requestException _ => true
  | .httpError _ => true
  | .jsonDecodeError => true
  | .indexError => false
  | .keyError _ => false
  | .typeError _ => false

/-- Python subscript `j[i]` for a non-negative integer index. -/
def pyIndex : Json → Nat → Except PyExc Json
  | .arr elems, i =>
    match elems[i]? with
    | some x => .ok x
    | none => .error .indexError
  | .str s, i =>
    match s.data[i]? with
    | some c => .ok (.str (String.mk [c]))
    | none => .error .indexError
  | .obj _, i => .error (.keyError (toString i))
  | .null, _ => .error (.typeError "NoneType is not subscriptable")
  | .bool _, _ => .error (.typeError "bool is not subscriptable")
  | .num _, _ => .error (.typeError "int is not subscriptable")

/-- Python subscript `j[k]` for a string key. -/
def pyGetKey : Json → String → Except PyExc Json
  | .obj fields, k =>
    match fields.find? (fun p => p.1 == k) with
    | some p => .ok p.2
    | none => .error (.keyError k)
  | .arr _, _ => .error (.typeError "list indices must be integers")
  | .str _, _ => .error (.typeError "string indices must be integers")
  | .null, _ => .error (.typeError "NoneType is not subscriptable")
  | .bool _, _ => .error (.typeError "bool is not subscriptable")
  | .num _, _ => .error (.typeError "int is not subscriptable")

/-- The outbound HTTP request handed to requests.post. -/
structure UpstreamRequest where
  method : String
  url : String
  params : List (String × Json)
  headers : List (String × String)
  body : Json

/-- What a requests.post call can produce: a raised RequestException
    (connection refused, timeout, ...) or an HTTP response carrying a status
    code and a body that either decodes as JSON or does not (none). -/
inductive UpstreamOutcome where
  | exc (msg : String)
  | response (status : Nat) (body : Option Json)

/-- Process configuration: API_KEY and REGION, read from the environment at
    startup. -/
structure Config where
  apiKey : String
  region : String

/-- The fixed Microsoft Translator endpoint. -/
def endpoint : String := "https://api.cognitive.microsofttranslator.com/translate"

/-- The single upstream request translate_text builds from a validated body:
    POST with query parameters api-version, from, to, subscription headers,
    and a one-element list body carrying the text. -/
def mkUpstreamRequest (cfg : Config) (data : List (String × Json)) : UpstreamRequest :=
  { method := "POST"
    url := endpoint
    params := [("api-version", .str "3.0"),
               ("from", dictGet data "source_lang"),
               ("to", dictGet data "target_lang")]
    headers := [("Ocp-Apim-Subscription-Key", cfg.apiKey),
                ("Ocp-Apim-Subscription-Region", cfg.region),
                ("Content-type", "application/json")]
    body := .arr [.obj [("text", dictGet data "text")]] }

/-- What an invocation of a Flask view produces: a returned response (status
    code plus JSON body), or an uncaught exception escaping the view, in
    which case the view itself returns nothing and the framework substitutes
    its own generic error page. -/
inductive HandlerResult where
  | resp (status : Nat) (body : Json)
  | uncaught (e : PyExc)

/-- The 400 validation-error body. -/
def missingFieldsBody : Json := .obj [("error", .str "Missing required fields")]

/-- The 500 upstream-failure body. -/
def translationFailedBody : Json := .obj [("error", .str "Translation failed")]

/-- The subscript chain of line 80: json[0] ["translations"] [0] ["text"],
    propagating the first Python exception it hits. -/
def extractTranslation (j : Json) : Except PyExc Json :=
  match pyIndex j 0 with
  | .error e => .error e
  | .ok first =>
    match pyGetKey first "translations" with
    | .error e => .error e
    | .ok translations =>
      match pyIndex translations 0 with
      | .error e => .error e
      | .ok firstTranslation => pyGetKey firstTranslation "text"

/-- The try block of translate_text: requests.post (already performed, its
    outcome passed in), response.raise_for_status (raises HTTPError exactly
    for status codes 400 to 599), then the subscript chain
    response.json()[0] ["translations"] [0] ["text"] and the jsonify return. -/
def tryBlock (outcome : UpstreamOutcome) : Except PyExc HandlerResult :=
  match outcome with
  | .exc msg => .error (.requestException msg)
  | .response status body =>
    if 400 ≤ status ∧ status < 600 then .error (.httpError status)
    else
      match body with
      | none => .error .jsonDecodeError
      | some j =>
        match extractTranslation j with
        | .error e => .error e
        | .ok t => .ok (.resp 200 (.obj [("translated_text", t)]))

/-- The POST /translate view.  `upstream` is the oracle standing for
    requests.post; the second component of the result records the upstream
    calls issued during the invocation. -/
def translate_text (cfg : Config) (upstream : UpstreamRequest → UpstreamOutcome)
    (data : List (String × Json)) : HandlerResult × List UpstreamRequest :=
  let source_lang := dictGet data "source_lang"
  let target_lang := dictGet data "target_lang"
  let text := dictGet data "text"
  if !(truthy source_lang && truthy target_lang && truthy text) then
    (.resp 400 missingFieldsBody, [])
  else
    let req := mkUpstreamRequest cfg data
    match tryBlock (upstream req) with
    | .ok r => (r, [req])
    | .error e =>
      if e.isRequestException then (.resp 500 translationFailedBody, [req])
      else (.uncaught e, [req])

/-- The GET /ping view. -/
def ping : HandlerResult :=
  .resp 200 (.obj [("message", .str "Flask backend is working!")])

/-- The validation translate_text performs: all three fields present and
    truthy. -/
def validRequest (data : List (String × Json)) : Bool :=
  truthy (dictGet data "source_lang") && truthy (dictGet data "target_lang") &&
    truthy (dictGet data "text")

/-- Upstream outcomes whose failure is caught by the except clause: a raised
    RequestException, an HTTP status in 400 to 599, or a body that fails
    JSON decoding. -/
def caughtFailure : UpstreamOutcome → Bool
  | .exc _ => true
  | .response status body => decide (400 ≤ status ∧ status < 600) || body.isNone

/-- The JSON value is an object containing the given key. -/
def hasKey : Json → String → Bool
  | .obj fields, k => fields.any (fun p => p.1 == k)
  | .null, _ => false
  | .bool _, _ => false
  | .num _, _ => false
  | .str _, _ => false
  | .arr _, _ => false

/-- The handler result carries exactly one of the keys translated_text and
    error.  An uncaught exception makes the view return no body at all, so
    it carries neither shape and is counted as vacuously well-formed. -/
def exclusiveShape : HandlerResult → Bool
  | .resp _ b =>
    (hasKey b "translated_text" && !hasKey b "error") ||
      (hasKey b "error" && !hasKey b "translated_text")
  | .uncaught _ => true

/-- A concrete valid request body used by witnesses. -/
def enFrHello : List (String × Json) :=
  [("source_lang", .str "en"), ("target_lang", .str "fr"), ("text", .str "Hello")]

/-- A concrete well-shaped upstream payload used by witnesses. -/
def goodPayload : Json :=
  .arr [.obj [("translations", .arr [.obj [("text", .str "Bonjour")]])]]

/-- A concrete request body whose language codes are not well-formed codes,
    used by witnesses. -/
def malformedCodes : List (String × Json) :=
  [("source_lang", .str "no-such-code-!!"), ("target_lang", .str "%%%"),
   ("text", .str "hi")]

-- Helper lemmas shared by the claim theorems.

theorem find_none_dictGet (data : List (String × Json)) (k : String)
    (h : data.find? (fun p => p.1 == k) = none) : dictGet data k = .null := by
  simp [dictGet, h]

theorem translate_invalid (cfg : Config) (upstream : UpstreamRequest → UpstreamOutcome)
    (data : List (String × Json)) (h : validRequest data = false) :
    translate_text cfg upstream data = (.resp 400 missingFieldsBody, []) := by
  simp only [validRequest] at h
  simp [translate_text, h]

theorem translate_valid_ok (cfg : Config) (upstream : UpstreamRequest → UpstreamOutcome)
    (data : List (String × Json)) (r : HandlerResult) (hv : validRequest data = true)
    (h : tryBlock (upstream (mkUpstreamRequest cfg data)) = .ok r) :
    translate_text cfg upstream data = (r, [mkUpstreamRequest cfg data]) := by
  simp only [validRequest] at hv
  simp [translate_text, hv, h]

theorem translate_valid_err_caught (cfg : Config)
    (upstream : UpstreamRequest → UpstreamOutcome)
    (data : List (String × Json)) (e : PyExc) (hv : validRequest data = true)
    (h : tryBlock (upstream (mkUpstreamRequest cfg data)) = .error e)
    (hc : e.isRequestException = true) :
    translate_text cfg upstream data
      = (.resp 500 translationFailedBody, [mkUpstreamRequest cfg data]) := by
  simp only [validRequest] at hv
  simp [translate_text, hv, h, hc]

theorem translate_valid_err_uncaught (cfg : Config)
    (upstream : UpstreamRequest → UpstreamOutcome)
    (data : List (String × Json)) (e : PyExc) (hv : validRequest data = true)
    (h : tryBlock (upstream (mkUpstreamRequest cfg data)) = .error e)
    (hc : e.isRequestException = false) :
    translate_text cfg upstream data = (.uncaught e, [mkUpstreamRequest cfg data]) := by
  simp only [validRequest] at hv
  simp [translate_text, hv, h, hc]

theorem tryBlock_caughtFailure (o : UpstreamOutcome) (h : caughtFailure o = true) :
    ∃ e : PyExc, tryBlock o = .error e ∧ e.isRequestException = true := by
  cases o with
  | exc msg => exact ⟨.requestException msg, rfl, rfl⟩
  | response status body =>
    simp only [caughtFailure, Bool.or_eq_true, decide_eq_true_eq,
      Option.isNone_iff_eq_none] at h
    by_cases hs : 400 ≤ status ∧ status < 600
    · exact ⟨.httpError status, by simp [tryBlock, hs], rfl⟩
    · have hb : body = none := h.resolve_left hs
      subst hb
      exact ⟨.jsonDecodeError, by simp [tryBlock, hs], rfl⟩

theorem translate_caught (cfg : Config) (upstream : UpstreamRequest → UpstreamOutcome)
    (data : List (String × Json)) (hv : validRequest data = true)
    (hf : caughtFailure (upstream (mkUpstreamRequest cfg data)) = true) :
    translate_text cfg upstream data
      = (.resp 500 translationFailedBody, [mkUpstreamRequest cfg data]) := by
  obtain ⟨e, he, hc⟩ := tryBlock_caughtFailure _ hf
  exact translate_valid_err_caught cfg upstream data e hv he hc

theorem tryBlock_ok_shape (o : UpstreamOutcome) (r : HandlerResult)
    (h : tryBlock o = .ok r) :
    ∃ t : Json, r = .resp 200 (.obj [("translated_text", t)]) := by
  unfold tryBlock at h
  split at h
  · simp at h
  · split at h
    · simp at h
    · split at h
      · simp at h
      · split at h
        · simp at h
        · simp only [Except.ok.injEq] at h
          exact ⟨_, h.symm⟩

-- Claim theorems.

/-- C1 counterexample: on a valid request, an upstream 200 response whose
    body decodes to the malformed payload consisting of an empty list
    (missing the expected fields) raises an uncaught IndexError instead of
    being mapped to the 500 Translation failed response; and a non-2xx
    status 304 carrying a well-shaped payload yields a 200 success rather
    than a 500, because raise_for_status only fires for statuses 400 to
    599. -/
theorem c1_counterexample :
    (translate_text ⟨"key", "ukwest"⟩
        (fun _ => .response 200 (some (.arr []))) enFrHello).1
      = .uncaught .indexError
  ∧ (translate_text ⟨"key", "ukwest"⟩
        (fun _ => .response 200 (some (.arr []))) enFrHello).1
      ≠ .resp 500 translationFailedBody
  ∧ (translate_text ⟨"key", "ukwest"⟩
        (fun _ => .response 304 (some goodPayload)) enFrHello).1
      = .resp 200 (.obj [("translated_text", .str "Bonjour")]) :=
  ⟨rfl, fun h => HandlerResult.noConfusion h, rfl⟩

/-- C1 (amended): for every valid translate request, an upstream failure
    that the except clause catches — a transport-level RequestException, an
    upstream HTTP status in 400 to 599, or a body that fails JSON decoding —
    is mapped to HTTP 500 with body error: Translation failed.  A payload
    that decodes but lacks the expected fields instead raises an uncaught
    exception that escapes handle_translate, and a status below 400 is not
    treated as a failure. -/
theorem c1_caught_upstream_failure_maps_to_500 (cfg : Config)
    (upstream : UpstreamRequest → UpstreamOutcome) (data : List (String × Json))
    (hv : validRequest data = true)
    (hf : caughtFailure (upstream (mkUpstreamRequest cfg data)) = true) :
    (translate_text cfg upstream data).1 = .resp 500 translationFailedBody := by
  rw [translate_caught cfg upstream data hv hf]

/-- C1 witness: the amended theorem applied to a concrete valid request and
    a connection-refused transport failure. -/
theorem c1_caught_upstream_failure_maps_to_500_witness :
    (translate_text ⟨"key", "ukwest"⟩
        (fun _ => .exc "connection refused") enFrHello).1
      = .resp 500 translationFailedBody :=
  c1_caught_upstream_failure_maps_to_500 ⟨"key", "ukwest"⟩
    (fun _ => .exc "connection refused") enFrHello rfl rfl

/-- C2: for every request whose three fields are non-empty strings, an
    upstream 2xx response whose payload has the expected shape yields HTTP
    200 with translated_text equal to the first translation result's text. -/
theorem c2_success_path (cfg : Config)
    (upstream : UpstreamRequest → UpstreamOutcome) (data : List (String × Json))
    (sl tl tx : String) (st : Nat) (t : Json)
    (hsl : dictGet data "source_lang" = .str sl) (hsl0 : sl ≠ "")
    (htl : dictGet data "target_lang" = .str tl) (htl0 : tl ≠ "")
    (htx : dictGet data "text" = .str tx) (htx0 : tx ≠ "")
    (hst : 200 ≤ st ∧ st < 300)
    (hu : upstream (mkUpstreamRequest cfg data)
        = .response st (some (.arr [.obj [("translations",
            .arr [.obj [("text", t)]])]]))) :
    (translate_text cfg upstream data).1
      = .resp 200 (.obj [("translated_text", t)]) := by
  have hv : validRequest data = true := by
    simp [validRequest, hsl, htl, htx, truthy, bne_iff_ne, hsl0, htl0, htx0]
  have hns : ¬(400 ≤ st ∧ st < 600) := by omega
  have htb : tryBlock (upstream (mkUpstreamRequest cfg data))
      = .ok (.resp 200 (.obj [("translated_text", t)])) := by
    rw [hu]
    simp only [tryBlock, if_neg hns]
    rfl
  rw [translate_valid_ok cfg upstream data _ hv htb]

/-- C2 witness: the concrete scenario from the spec, en to fr, Hello with
    upstream payload Bonjour at status 200. -/
theorem c2_success_path_witness :
    (translate_text ⟨"key", "ukwest"⟩
        (fun _ => .response 200 (some goodPayload)) enFrHello).1
      = .resp 200 (.obj [("translated_text", .str "Bonjour")]) :=
  c2_success_path ⟨"key", "ukwest"⟩ (fun _ => .response 200 (some goodPayload))
    enFrHello "en" "fr" "Hello" 200 (.str "Bonjour")
    rfl (by decide) rfl (by decide) rfl (by decide) (by omega) rfl

/-- C3: for every request body in which any of source_lang, target_lang or
    text is missing or is the empty string, translate_text returns HTTP 400
    with body error: Missing required fields and issues no upstream call. -/
theorem c3_missing_or_empty_field_rejected (cfg : Config)
    (upstream : UpstreamRequest → UpstreamOutcome) (data : List (String × Json))
    (h : data.find? (fun p => p.1 == "source_lang") = none
       ∨ dictGet data "source_lang" = .str ""
       ∨ data.find? (fun p => p.1 == "target_lang") = none
       ∨ dictGet data "target_lang" = .str ""
       ∨ data.find? (fun p => p.1 == "text") = none
       ∨ dictGet data "text" = .str "") :
    translate_text cfg upstream data = (.resp 400 missingFieldsBody, []) := by
  apply translate_invalid
  rcases h with h | h | h | h | h | h
  · simp [validRequest, find_none_dictGet _ _ h, truthy]
  · simp [validRequest, h, truthy]
  · simp [validRequest, find_none_dictGet _ _ h, truthy]
  · simp [validRequest, h, truthy]
  · simp [validRequest, find_none_dictGet _ _ h, truthy]
  · simp [validRequest, h, truthy]

/-- C3 witness: the concrete scenario from the spec, a body missing
    target_lang. -/
theorem c3_missing_or_empty_field_rejected_witness :
    translate_text ⟨"key", "ukwest"⟩ (fun _ => .exc "never called")
        [("source_lang", Json.str "en"), ("text", Json.str "Hello")]
      = (.resp 400 missingFieldsBody, []) :=
  c3_missing_or_empty_field_rejected ⟨"key", "ukwest"⟩
    (fun _ => .exc "never called")
    [("source_lang", Json.str "en"), ("text", Json.str "Hello")]
    (Or.inr (Or.inr (Or.inl rfl)))

/-- C4 counterexample: two executions on the same valid request, both
    failing for different non-2xx upstream statuses (301 with a decodable
    empty-list body, and 503): the first raises an uncaught IndexError while
    the second returns the 500 Translation failed response, so the
    caller-visible outcomes are not identical. -/
theorem c4_counterexample :
    (translate_text ⟨"key", "ukwest"⟩
        (fun _ => .response 301 (some (.arr []))) enFrHello).1
      = .uncaught .indexError
  ∧ (translate_text ⟨"key", "ukwest"⟩
        (fun _ => .response 503 (some (.arr []))) enFrHello).1
      = .resp 500 translationFailedBody
  ∧ (translate_text ⟨"key", "ukwest"⟩
        (fun _ => .response 301 (some (.arr []))) enFrHello).1
      ≠ (translate_text ⟨"key", "ukwest"⟩
        (fun _ => .response 503 (some (.arr []))) enFrHello).1 :=
  ⟨rfl, rfl, fun h => HandlerResult.noConfusion h⟩

/-- C4 (amended): for any two executions of translate_text on the same
    valid request whose upstream outcomes are failures caught by the except
    clause (a transport-level RequestException, an HTTP status in 400 to
    599, or an undecodable body), the caller-visible response is identical
    whatever the exception message or status: 500 with the fixed
    Translation failed body, containing no upstream-derived text. -/
theorem c4_uniform_caught_failure (cfg : Config)
    (u1 u2 : UpstreamRequest → UpstreamOutcome) (data : List (String × Json))
    (hv : validRequest data = true)
    (h1 : caughtFailure (u1 (mkUpstreamRequest cfg data)) = true)
    (h2 : caughtFailure (u2 (mkUpstreamRequest cfg data)) = true) :
    (translate_text cfg u1 data).1 = (translate_text cfg u2 data).1
  ∧ (translate_text cfg u1 data).1 = .resp 500 translationFailedBody := by
  rw [translate_caught cfg u1 data hv h1, translate_caught cfg u2 data hv h2]
  exact ⟨rfl, rfl⟩

/-- C4 witness: a timeout and an HTTP 503 produce the same fixed 500
    response. -/
theorem c4_uniform_caught_failure_witness :
    ((translate_text ⟨"key", "ukwest"⟩
        (fun _ => .exc "timed out") enFrHello).1
      = (translate_text ⟨"key", "ukwest"⟩
        (fun _ => .response 503 none) enFrHello).1)
  ∧ (translate_text ⟨"key", "ukwest"⟩
        (fun _ => .exc "timed out") enFrHello).1
      = .resp 500 translationFailedBody :=
  c4_uniform_caught_failure ⟨"key", "ukwest"⟩ (fun _ => .exc "timed out")
    (fun _ => .response 503 none) enFrHello rfl rfl rfl

/-- C5: every response returned by translate_text carries exactly one of
    the keys translated_text and error, never both and never a partial
    result; an uncaught exception makes the view return no body at all, so
    it carries neither shape. -/
theorem c5_exclusive_response_shape (cfg : Config)
    (upstream : UpstreamRequest → UpstreamOutcome) (data : List (String × Json)) :
    exclusiveShape (translate_text cfg upstream data).1 = true := by
  cases hv : validRequest data with
  | false => rw [translate_invalid cfg upstream data hv]; rfl
  | true =>
    cases htb : tryBlock (upstream (mkUpstreamRequest cfg data)) with
    | ok r =>
      rw [translate_valid_ok cfg upstream data r hv htb]
      obtain ⟨t, rfl⟩ := tryBlock_ok_shape _ _ htb
      rfl
    | error e =>
      cases hc : e.isRequestException with
      | false => rw [translate_valid_err_uncaught cfg upstream data e hv htb hc]; rfl
      | true => rw [translate_valid_err_caught cfg upstream data e hv htb hc]; rfl

/-- C6: the ping view takes no input and returns HTTP 200 with the fixed
    body message: Flask backend is working!, independent of upstream state,
    which it never consults. -/
theorem c6_ping_fixed :
    ping = .resp 200 (.obj [("message", .str "Flask backend is working!")]) := rfl

/-- C7: on every valid request, the single upstream call is a POST to the
    fixed endpoint whose query parameters are exactly api-version 3.0, from
    source_lang and to target_lang, whose headers carry the configured
    subscription key and region, and whose JSON body is a one-element list
    holding the caller's text unmodified. -/
theorem c7_upstream_request_construction (cfg : Config)
    (upstream : UpstreamRequest → UpstreamOutcome) (data : List (String × Json))
    (hv : validRequest data = true) :
    (translate_text cfg upstream data).2 =
      [{ method := "POST"
         url := endpoint
         params := [("api-version", Json.str "3.0"),
                    ("from", dictGet data "source_lang"),
                    ("to", dictGet data "target_lang")]
         headers := [("Ocp-Apim-Subscription-Key", cfg.apiKey),
                     ("Ocp-Apim-Subscription-Region", cfg.region),
                     ("Content-type", "application/json")]
         body := Json.arr [Json.obj [("text", dictGet data "text")]] }] := by
  cases htb : tryBlock (upstream (mkUpstreamRequest cfg data)) with
  | ok r => rw [translate_valid_ok cfg upstream data r hv htb]; rfl
  | error e =>
    cases hc : e.isRequestException with
    | false => rw [translate_valid_err_uncaught cfg upstream data e hv htb hc]; rfl
    | true => rw [translate_valid_err_caught cfg upstream data e hv htb hc]; rfl

/-- C7 witness: the concrete request built for en, fr, Hello. -/
theorem c7_upstream_request_construction_witness :
    (translate_text ⟨"key", "ukwest"⟩
        (fun _ => .exc "connection refused") enFrHello).2 =
      [{ method := "POST"
         url := endpoint
         params := [("api-version", Json.str "3.0"),
                    ("from", Json.str "en"), ("to", Json.str "fr")]
         headers := [("Ocp-Apim-Subscription-Key", "key"),
                     ("Ocp-Apim-Subscription-Region", "ukwest"),
                     ("Content-type", "application/json")]
         body := Json.arr [Json.obj [("text", Json.str "Hello")]] }] :=
  c7_upstream_request_construction ⟨"key", "ukwest"⟩
    (fun _ => .exc "connection refused") enFrHello rfl

/-- C8: at most one outbound upstream call per invocation of
    translate_text: exactly one when validation passes and zero when it
    fails, with no retry whatever the upstream outcome. -/
theorem c8_at_most_one_upstream_call (cfg : Config)
    (upstream : UpstreamRequest → UpstreamOutcome) (data : List (String × Json)) :
    (translate_text cfg upstream data).2.length
      = (if validRequest data = true then 1 else 0) := by
  cases hv : validRequest data with
  | false => rw [translate_invalid cfg upstream data hv]; rfl
  | true =>
    cases htb : tryBlock (upstream (mkUpstreamRequest cfg data)) with
    | ok r => rw [translate_valid_ok cfg upstream data r hv htb]; rfl
    | error e =>
      cases hc : e.isRequestException with
      | false => rw [translate_valid_err_uncaught cfg upstream data e hv htb hc]; rfl
      | true => rw [translate_valid_err_caught cfg upstream data e hv htb hc]; rfl

/-- C9: no format validation of language codes: every request whose three
    fields are non-empty strings passes validation, its single upstream call
    is issued, and the codes are forwarded unmodified as the from and to
    query parameters. -/
theorem c9_language_codes_not_validated (cfg : Config)
    (upstream : UpstreamRequest → UpstreamOutcome) (data : List (String × Json))
    (sl tl tx : String)
    (hsl : dictGet data "source_lang" = .str sl) (hsl0 : sl ≠ "")
    (htl : dictGet data "target_lang" = .str tl) (htl0 : tl ≠ "")
    (htx : dictGet data "text" = .str tx) (htx0 : tx ≠ "") :
    validRequest data = true
  ∧ (translate_text cfg upstream data).2 = [mkUpstreamRequest cfg data]
  ∧ (mkUpstreamRequest cfg data).params
      = [("api-version", Json.str "3.0"),
         ("from", Json.str sl), ("to", Json.str tl)] := by
  have hv : validRequest data = true := by
    simp [validRequest, hsl, htl, htx, truthy, bne_iff_ne, hsl0, htl0, htx0]
  refine ⟨hv, ?_, ?_⟩
  · cases htb : tryBlock (upstream (mkUpstreamRequest cfg data)) with
    | ok r => rw [translate_valid_ok cfg upstream data r hv htb]
    | error e =>
      cases hc : e.isRequestException with
      | false => rw [translate_valid_err_uncaught cfg upstream data e hv htb hc]
      | true => rw [translate_valid_err_caught cfg upstream data e hv htb hc]
  · simp [mkUpstreamRequest, hsl, htl]

/-- C9 witness: a body with syntactically malformed language codes passes
    validation and the codes are forwarded verbatim. -/
theorem c9_language_codes_not_validated_witness :
    validRequest malformedCodes = true
  ∧ (translate_text ⟨"key", "ukwest"⟩
        (fun _ => .exc "connection refused") malformedCodes).2
      = [mkUpstreamRequest ⟨"key", "ukwest"⟩ malformedCodes]
  ∧ (mkUpstreamRequest ⟨"key", "ukwest"⟩ malformedCodes).params
      = [("api-version", Json.str "3.0"),
         ("from", Json.str "no-such-code-!!"), ("to", Json.str "%%%")] :=
  c9_language_codes_not_validated ⟨"key", "ukwest"⟩
    (fun _ => .exc "connection refused") malformedCodes
    "no-such-code-!!" "%%%" "hi" rfl (by decide) rfl (by decide) rfl (by decide)

/-- C10: validation rejects any falsy field value, not only missing or
    empty-string fields: a field present with a falsy value such as the
    number 0, false, or an empty list is rejected with HTTP 400 and no
    upstream call is issued. -/
theorem c10_falsy_field_rejected (cfg : Config)
    (upstream : UpstreamRequest → UpstreamOutcome) (data : List (String × Json))
    (f : String) (v : Json)
    (hf : f = "source_lang" ∨ f = "target_lang" ∨ f = "text")
    (hp : data.find? (fun p => p.1 == f) = some (f, v))
    (hv : truthy v = false) :
    translate_text cfg upstream data = (.resp 400 missingFieldsBody, []) := by
  apply translate_invalid
  have hd : dictGet data f = v := by simp [dictGet, hp]
  rcases hf with hf | hf | hf <;> subst hf <;> simp [validRequest, hd, hv]

/-- C10 witness: a body whose text field is the number 0 is rejected with
    400 and no upstream call. -/
theorem c10_falsy_field_rejected_witness :
    translate_text ⟨"key", "ukwest"⟩ (fun _ => .exc "never called")
        [("source_lang", Json.str "en"), ("target_lang", Json.str "fr"),
         ("text", Json.num 0)]
      = (.resp 400 missingFieldsBody, []) :=
  c10_falsy_field_rejected ⟨"key", "ukwest"⟩ (fun _ => .exc "never called")
    [("source_lang", Json.str "en"), ("target_lang", Json.str "fr"),
     ("text", Json.num 0)]
    "text" (Json.num 0) (Or.inr (Or.inr rfl)) rfl rfl
